import Mathlib

/-!
Shallow embedding of the SQLite-backed metadata catalog of a vector database
(`SqliteMetaImpl` in `src/core/src/db/meta/SqliteMetaImpl.cpp`).

The catalog holds two tables (`META_TABLES` for collections/partitions and
`META_TABLEFILES` for segment files) plus an environment row.  Each C++
method that the claims touch is translated into a pure Lean function over an
explicit `Catalog` (and, for the TTL cleaner, a `SysState` that also carries
the set of blobs present on disk).  SQL `select ... where` becomes
`List.filter`, `update` by primary key becomes a `List.map` that replaces the
matching row, `update_all ... where` becomes a `List.map` with a condition,
`order_by` becomes an insertion sort, and a sqlite transaction is one pure
state transformation.  Timestamps (`utils::GetMicroSecTimeStamp()`) and
generated identifiers (`NextTableId` / `NextFileId`) are passed as explicit
arguments.
-/

namespace MilvusMeta

/-- Status codes used by the translated methods (`DB_ERROR`, `DB_ALREADY_EXIST`,
`DB_NOT_FOUND`, ... from the Milvus `Status` machinery). -/
inductive StatusCode where
  | OK
  | DB_ERROR
  | DB_META_TRANSACTION_FAILED
  | DB_NOT_FOUND
  | DB_ALREADY_EXIST
  | DB_INVALID_PATH
  | DB_INCOMPATIB_META
deriving DecidableEq, Repr

/-- `milvus::Status`: a code plus a message. -/
structure Status where
  code : StatusCode
  message : String
deriving DecidableEq, Repr

/-- Collection (table) lifecycle states: `TableSchema::NORMAL` / `TableSchema::TO_DELETE`. -/
inductive TableState where
  | NORMAL
  | TO_DELETE
deriving DecidableEq, Repr

/-- Segment file kinds, `TableFileSchema::FILE_TYPE` in the source. -/
inductive FileType where
  | NEW
  | RAW
  | TO_INDEX
  | INDEX
  | TO_DELETE
  | NEW_MERGE
  | NEW_INDEX
  | BACKUP
deriving DecidableEq, Repr

/-- A row of `META_TABLES` (`meta::TableSchema`).  `table_id_` is the
user-visible collection id (unique column), `id_` the sqlite primary key. -/
structure TableSchema where
  id_ : Int
  table_id_ : String
  state_ : TableState
  dimension_ : Int
  created_on_ : Int
  flag_ : Int
  index_file_size_ : Int
  engine_type_ : Int
  index_params_ : String
  metric_type_ : Int
  owner_table_ : String
  partition_tag_ : String
  version_ : String
  flush_lsn_ : Int
deriving DecidableEq, Repr

/-- A row of `META_TABLEFILES` (`meta::TableFileSchema`). -/
structure TableFileSchema where
  id_ : Int
  table_id_ : String
  segment_id_ : String
  engine_type_ : Int
  file_id_ : String
  file_type_ : FileType
  file_size_ : Int
  row_count_ : Int
  updated_time_ : Int
  created_on_ : Int
  date_ : Int
  flush_lsn_ : Int
deriving DecidableEq, Repr

/-- The catalog: the two sqlite tables the claims are about. -/
structure Catalog where
  tables : List TableSchema
  files : List TableFileSchema
deriving DecidableEq, Repr

/-- Catalog plus the set of segment blobs present on disk (identified by
`file_id_`, globally unique per the data model).  Used by the TTL cleaner,
whose loop also erases blobs via `utils::DeleteTableFilePath`. -/
structure SysState where
  catalog : Catalog
  disk : List String
deriving DecidableEq, Repr

/-- `meta::US_PS`: microseconds per second, used by the TTL comparison. -/
def US_PS : Int := 1000000

/-- Modelled from the spec: `DEFAULT_ENGINE_TYPE` (`MetaConsts.h` is not under
src/); the standard default engine, `FAISS_IDMAP`. -/
def DEFAULT_ENGINE_TYPE : Int := 1

/-- Modelled from the spec: `EngineType::FAISS_BIN_IDMAP` (the enum lives
outside src/); the default engine for binary metrics. -/
def FAISS_BIN_IDMAP : Int := 9

/-- Modelled from the spec: metric codes (the `MetricType` enum is outside
src/).  `L2 = 1`, `IP = 2`, `HAMMING = 3`, `JACCARD = 4`, `TANIMOTO = 5`. -/
def METRIC_L2 : Int := 1

def METRIC_IP : Int := 2

def METRIC_HAMMING : Int := 3

def METRIC_JACCARD : Int := 4

def METRIC_TANIMOTO : Int := 5

/-- Modelled from the spec: `engine::utils::IsBinaryMetricType` (in
`db/Utils.cpp`, not under src/).  The spec's binary metrics are the
Hamming-space ones: `HAMMING`, `JACCARD`, `TANIMOTO`. -/
def IsBinaryMetricType (metric : Int) : Bool :=
  metric = METRIC_HAMMING ∨ metric = METRIC_JACCARD ∨ metric = METRIC_TANIMOTO

/-- A blank character, for tag trimming. -/
def isBlankChar (c : Char) : Bool := c = ' '

/-- Modelled from the spec: `server::StringHelpFunctions::TrimStringBlank` is
not under src/; the spec says partition tags are compared "after trimming
surrounding whitespace" (`" ab cd "` is treated as `"ab cd"`): blanks are
dropped from both ends of the character list. -/
def TrimStringBlank (s : String) : String :=
  String.mk (((s.data.dropWhile isBlankChar).reverse.dropWhile isBlankChar).reverse)

/-- The rows `DescribeTable` selects: matching `table_id_` and state not
`TO_DELETE` (`SqliteMetaImpl.cpp:214-220`). -/
def describeRows (cat : Catalog) (table_id : String) : List TableSchema :=
  cat.tables.filter (fun t => t.table_id_ = table_id ∧ t.state_ ≠ TableState.TO_DELETE)

/-- `SqliteMetaImpl::DescribeTable`: succeeds only when exactly one
non-TO_DELETE row with the given `table_id_` exists; otherwise `DB_NOT_FOUND`.
All columns of the row are copied out, so the whole row is returned. -/
def DescribeTable (cat : Catalog) (table_id : String) : Except Status TableSchema :=
  match describeRows cat table_id with
  | [t] => Except.ok t
  | _ => Except.error ⟨StatusCode.DB_NOT_FOUND, "Table " ++ table_id ++ " not found"⟩

/-- The file kinds `FilesToSearch` selects (`file_types` vector at
`SqliteMetaImpl.cpp:985-986`). -/
def searchKinds : List FileType := [FileType.RAW, FileType.TO_INDEX, FileType.INDEX]

/-- `SqliteMetaImpl::FilesToSearch`: after a successful `DescribeTable`,
selects the files of the collection whose kind is in `searchKinds`,
additionally restricted to the given primary ids when `ids` is non-empty
(`SqliteMetaImpl.cpp:970-1042`). -/
def FilesToSearch (cat : Catalog) (table_id : String) (ids : List Int) :
    Except Status (List TableFileSchema) :=
  match DescribeTable cat table_id with
  | Except.error s => Except.error s
  | Except.ok _ =>
    if ids.isEmpty then
      Except.ok (cat.files.filter (fun f =>
        f.table_id_ = table_id ∧ f.file_type_ ∈ searchKinds))
    else
      Except.ok (cat.files.filter (fun f =>
        f.table_id_ = table_id ∧ f.id_ ∈ ids ∧ f.file_type_ ∈ searchKinds))

/-- `SqliteMetaImpl::CreateTable` (`SqliteMetaImpl.cpp:166-207`).
If the schema's `table_id_` is empty a generated id (`gen_id`, from
`NextTableId`) is used and no existence check is made.  Otherwise the rows
with that `table_id_` are selected: when exactly one exists the call fails —
`DB_ERROR` ("delete state, please wait") if that row is `TO_DELETE`, else
`DB_ALREADY_EXIST`.  On the insert path `created_on_` is stamped with `now`
and sqlite assigns the primary key (`new_pk`). -/
def CreateTable (cat : Catalog) (schema : TableSchema) (gen_id : String) (now : Int)
    (new_pk : Int) : Except Status (Catalog × TableSchema) :=
  let checked : Except Status String :=
    if schema.table_id_ = "" then Except.ok gen_id
    else
      match cat.tables.filter (fun t => t.table_id_ = schema.table_id_) with
      | [t] =>
        if t.state_ = TableState.TO_DELETE then
          Except.error ⟨StatusCode.DB_ERROR,
            "Table already exists and it is in delete state, please wait a second"⟩
        else
          Except.error ⟨StatusCode.DB_ALREADY_EXIST, "Table already exists"⟩
      | _ => Except.ok schema.table_id_
  match checked with
  | Except.error s => Except.error s
  | Except.ok tid =>
    let inserted : TableSchema := { schema with table_id_ := tid, created_on_ := now, id_ := new_pk }
    Except.ok ({ cat with tables := cat.tables ++ [inserted] }, inserted)

/-- `SqliteMetaImpl::GetPartitionName` reduced to its lookup
(`SqliteMetaImpl.cpp:943-968`): the first non-TO_DELETE row owned by
`table_id` whose `partition_tag_` equals the trimmed tag, if any. -/
def GetPartitionName (cat : Catalog) (table_id : String) (tag : String) : Option String :=
  let valid_tag := TrimStringBlank tag
  match cat.tables.filter (fun t =>
      t.owner_table_ = table_id ∧ t.partition_tag_ = valid_tag ∧
      t.state_ ≠ TableState.TO_DELETE) with
  | [] => none
  | t :: _ => some t.table_id_

/-- `SqliteMetaImpl::CreatePartition` (`SqliteMetaImpl.cpp:849-898`).
Describes the parent, rejects nesting (`owner_table_` non-empty) with
`DB_ERROR`, rejects a duplicate trimmed tag with `DB_ERROR`, then builds the
partition schema from the parent's and delegates to `CreateTable`; a
`DB_ALREADY_EXIST` from `CreateTable` is re-worded. -/
def CreatePartition (cat : Catalog) (table_id : String) (partition_name : String)
    (tag : String) (lsn : Int) (gen_id : String) (now : Int) (new_pk : Int) :
    Except Status (Catalog × TableSchema) :=
  match DescribeTable cat table_id with
  | Except.error s => Except.error s
  | Except.ok parent =>
    if parent.owner_table_ ≠ "" then
      Except.error ⟨StatusCode.DB_ERROR, "Nested partition is not allowed"⟩
    else
      let valid_tag := TrimStringBlank tag
      match GetPartitionName cat table_id tag with
      | some _ => Except.error ⟨StatusCode.DB_ERROR, "Duplicate partition is not allowed"⟩
      | none =>
        let schema : TableSchema :=
          { parent with
            table_id_ := if partition_name = "" then gen_id else partition_name,
            id_ := -1, flag_ := 0, created_on_ := now,
            owner_table_ := table_id, partition_tag_ := valid_tag, flush_lsn_ := lsn }
        match CreateTable cat schema gen_id now new_pk with
        | Except.error e =>
          if e.code = StatusCode.DB_ALREADY_EXIST then
            Except.error ⟨StatusCode.DB_ALREADY_EXIST, "Partition already exists"⟩
          else Except.error e
        | Except.ok r => Except.ok r

/-- sqlite `update` by primary key: replace the row whose `id_` matches. -/
def updateFileRow (files : List TableFileSchema) (f : TableFileSchema) :
    List TableFileSchema :=
  files.map (fun g => if g.id_ = f.id_ then f else g)

/-- `SqliteMetaImpl::UpdateTableFile` (`SqliteMetaImpl.cpp:610-638`).
Stamps `updated_time_`; selects the rows with the file's `table_id_`; when
none exists or the first one is `TO_DELETE`, the file's kind is forced to
`TO_DELETE`; finally the row is written back.  Returns the new catalog and
the row as written (the C++ mutates its in-out argument). -/
def UpdateTableFile (cat : Catalog) (file : TableFileSchema) (now : Int) :
    Catalog × TableFileSchema :=
  let stamped := { file with updated_time_ := now }
  let matching := cat.tables.filter (fun t => t.table_id_ = file.table_id_)
  let written :=
    match matching with
    | [] => { stamped with file_type_ := FileType.TO_DELETE }
    | t :: _ =>
      if t.state_ = TableState.TO_DELETE then
        { stamped with file_type_ := FileType.TO_DELETE }
      else stamped
  ({ cat with files := updateFileRow cat.files written }, written)

/-- The `has_tables` lookup of `UpdateTableFiles`: does a non-TO_DELETE row
with this `table_id_` exist (`SqliteMetaImpl.cpp:654-661`)? -/
def hasActiveTable (cat : Catalog) (table_id : String) : Bool :=
  (cat.tables.filter (fun t =>
    t.table_id_ = table_id ∧ t.state_ ≠ TableState.TO_DELETE)).length ≥ 1

/-- `SqliteMetaImpl::UpdateTableFiles` (`SqliteMetaImpl.cpp:640-686`).
The `has_tables` map is computed against the initial catalog; then, inside a
single transaction, each file whose table is gone is coerced to `TO_DELETE`,
stamped, and written back.  Returns the new catalog and the batch as
written. -/
def UpdateTableFiles (cat : Catalog) (files : List TableFileSchema) (now : Int) :
    Catalog × List TableFileSchema :=
  files.foldl
    (fun acc f =>
      let coerced :=
        if hasActiveTable cat f.table_id_ then f
        else { f with file_type_ := FileType.TO_DELETE }
      let written := { coerced with updated_time_ := now }
      ({ acc.1 with files := updateFileRow acc.1.files written }, acc.2 ++ [written]))
    (cat, [])

/-- Insert a file into a list kept in descending `file_size_` order
(model of sqlite `order_by(file_size).desc()`). -/
def insertDescBySize (f : TableFileSchema) : List TableFileSchema → List TableFileSchema
  | [] => [f]
  | g :: gs =>
    if g.file_size_ ≤ f.file_size_ then f :: g :: gs else g :: insertDescBySize f gs

/-- Sort a file list by `file_size_` descending. -/
def sortDescBySize : List TableFileSchema → List TableFileSchema
  | [] => []
  | f :: fs => insertDescBySize f (sortDescBySize fs)

/-- `SqliteMetaImpl::FilesToMerge` (`SqliteMetaImpl.cpp:1044-1108`).
After a successful `DescribeTable`, selects the collection's RAW files
ordered by size descending, and the loop skips every file whose size reaches
`index_file_size_` (the collection's target segment size). -/
def FilesToMerge (cat : Catalog) (table_id : String) :
    Except Status (List TableFileSchema) :=
  match DescribeTable cat table_id with
  | Except.error s => Except.error s
  | Except.ok ts =>
    let selected := sortDescBySize (cat.files.filter (fun f =>
      f.file_type_ = FileType.RAW ∧ f.table_id_ = table_id))
    Except.ok (selected.filter (fun f => f.file_size_ < ts.index_file_size_))

/-- `SqliteMetaImpl::DropTableIndex` (`SqliteMetaImpl.cpp:805-847`), three
`update_all` statements in order: the collection's INDEX files become
TO_DELETE (stamped), then its BACKUP files become RAW (stamped), then the
collection rows get the metric-appropriate default `engine_type_` and empty
`index_params_`.  The default is `FAISS_BIN_IDMAP` only when exactly one row
with the id exists and its metric is binary. -/
def DropTableIndex (cat : Catalog) (table_id : String) (now : Int) : Catalog :=
  let files1 := cat.files.map (fun f =>
    if f.table_id_ = table_id ∧ f.file_type_ = FileType.INDEX then
      { f with file_type_ := FileType.TO_DELETE, updated_time_ := now }
    else f)
  let files2 := files1.map (fun f =>
    if f.table_id_ = table_id ∧ f.file_type_ = FileType.BACKUP then
      { f with file_type_ := FileType.RAW, updated_time_ := now }
    else f)
  let groups := cat.tables.filter (fun t => t.table_id_ = table_id)
  let raw_engine_type :=
    match groups with
    | [t] => if IsBinaryMetricType t.metric_type_ then FAISS_BIN_IDMAP else DEFAULT_ENGINE_TYPE
    | _ => DEFAULT_ENGINE_TYPE
  let tables2 := cat.tables.map (fun t =>
    if t.table_id_ = table_id then
      { t with engine_type_ := raw_engine_type, index_params_ := "\x7b\x7d" }
    else t)
  ⟨tables2, files2⟩

/-- `SqliteMetaImpl::Size` (`SqliteMetaImpl.cpp:1323-1342`): the SQL
`SUM(file_size)` over the rows whose kind is not `TO_DELETE`. -/
def Size (cat : Catalog) : Int :=
  ((cat.files.filter (fun f => f.file_type_ ≠ FileType.TO_DELETE)).map
    (fun f => f.file_size_)).sum

/-- The spec's notion of the visible byte count, for comparison with `Size`:
the sum over segments whose kind is in {RAW, TO_INDEX, INDEX} ("Only segments
in {RAW, TO_INDEX, INDEX} are visible to queries", "size() sums visible
segment bytes"). -/
def specVisibleSize (cat : Catalog) : Int :=
  ((cat.files.filter (fun f => f.file_type_ ∈ searchKinds)).map
    (fun f => f.file_size_)).sum

/-- The bytes `Size` counts beyond the visible ones: shadow kinds
(NEW, NEW_MERGE, NEW_INDEX) and BACKUP. -/
def shadowBackupSize (cat : Catalog) : Int :=
  ((cat.files.filter (fun f =>
    f.file_type_ = FileType.NEW ∨ f.file_type_ = FileType.NEW_MERGE ∨
    f.file_type_ = FileType.NEW_INDEX ∨ f.file_type_ = FileType.BACKUP)).map
    (fun f => f.file_size_)).sum

/-- The files the TTL cleaner removes in its first phase
(`SqliteMetaImpl.cpp:1402-1448`): selected as kind ∈ {TO_DELETE, BACKUP} with
`updated_time_ < now - seconds * US_PS`, skipped while
`OngoingFileChecker::IsIgnored` holds (modelled by membership of the file's
`file_id_` in `ongoing`), and actually removed only when the kind is
`TO_DELETE`.  BACKUP rows are selected but never removed. -/
def cleanRemovable (now : Int) (seconds : Int) (ongoing : List String)
    (f : TableFileSchema) : Bool :=
  f.file_type_ = FileType.TO_DELETE ∧ f.updated_time_ < now - seconds * US_PS ∧
    f.file_id_ ∉ ongoing

/-- `SqliteMetaImpl::CleanUpFilesWithTTL` (`SqliteMetaImpl.cpp:1381-1546`)
on the catalog-and-blobs state.  Phase one removes the expired, not-ongoing
TO_DELETE file rows (each removed row's blob is erased from disk by
`utils::DeleteTableFilePath`); phase two removes every TO_DELETE collection
row.  The remaining phases only delete now-empty directories and so leave
this state unchanged. -/
def CleanUpFilesWithTTL (s : SysState) (now : Int) (seconds : Int)
    (ongoing : List String) : SysState :=
  let removed := s.catalog.files.filter (cleanRemovable now seconds ongoing)
  let kept_files := s.catalog.files.filter (fun f => !cleanRemovable now seconds ongoing f)
  let kept_tables := s.catalog.tables.filter (fun t => t.state_ ≠ TableState.TO_DELETE)
  let kept_disk := s.disk.filter (fun b => !(removed.any (fun f => f.file_id_ = b)))
  ⟨⟨kept_tables, kept_files⟩, kept_disk⟩

/-- Insert a file into a list kept in ascending `id_` order
(model of sqlite `order_by(id)`). -/
def insertAscById (f : TableFileSchema) : List TableFileSchema → List TableFileSchema
  | [] => [f]
  | g :: gs =>
    if f.id_ ≤ g.id_ then f :: g :: gs else g :: insertAscById f gs

/-- Sort a file list by `id_` ascending. -/
def sortAscById : List TableFileSchema → List TableFileSchema
  | [] => []
  | f :: fs => insertAscById f (sortAscById fs)

/-- The accumulation loop of `DiscardFiles` (`SqliteMetaImpl.cpp:1618-1627`):
walk the selected rows, stop once the remaining size is no longer positive,
collect the visited ids while subtracting their sizes. -/
def pickDiscard (to_discard : Int) : List TableFileSchema → List Int × Int
  | [] => ([], to_discard)
  | f :: fs =>
    if to_discard ≤ 0 then ([], to_discard)
    else
      let rest := pickDiscard (to_discard - f.file_size_) fs
      (f.id_ :: rest.1, rest.2)

/-- One invocation of `SqliteMetaImpl::DiscardFiles`
(`SqliteMetaImpl.cpp:1593-1648`) up to its tail call.  `none` means the call
returns (the `to_discard_size <= 0` base case); `some` carries the catalog
after the transaction and the argument of the unconditional recursive call
`return DiscardFiles(to_discard_size)` — note the `return true` taken when no
ids were collected only exits the transaction lambda, not the function, so
the recursion happens even then.  The select is the first 10 non-TO_DELETE
rows ordered by primary id. -/
def DiscardFilesStep (now : Int) (cat : Catalog) (to_discard : Int) :
    Option (Catalog × Int) :=
  if to_discard ≤ 0 then none
  else
    let selected := (sortAscById (cat.files.filter (fun f =>
      f.file_type_ ≠ FileType.TO_DELETE))).take 10
    let picked := pickDiscard to_discard selected
    let cat2 : Catalog :=
      { cat with files := cat.files.map (fun f =>
          if f.id_ ∈ picked.1 then
            { f with file_type_ := FileType.TO_DELETE, updated_time_ := now }
          else f) }
    some (cat2, picked.2)

/-- Run the `DiscardFiles` recursion for `fuel` recursive calls: `none` means
the function returned within that many calls, `some st` that it is still
running with state `st`. -/
def discardIter (now : Int) : Nat → Catalog × Int → Option (Catalog × Int)
  | 0, st => some st
  | fuel + 1, st =>
    match DiscardFilesStep now st.1 st.2 with
    | none => none
    | some st2 => discardIter now fuel st2

/-! ### Helper lemmas -/

theorem mem_insertDescBySize {x f : TableFileSchema} {l : List TableFileSchema} :
    x ∈ insertDescBySize f l ↔ x = f ∨ x ∈ l := by
  induction l with
  | nil => simp [insertDescBySize]
  | cons g gs ih =>
    by_cases hle : g.file_size_ ≤ f.file_size_
    · simp [insertDescBySize, hle]
    · simp only [insertDescBySize, if_neg hle, List.mem_cons, ih]
      tauto

theorem mem_sortDescBySize {x : TableFileSchema} {l : List TableFileSchema} :
    x ∈ sortDescBySize l ↔ x ∈ l := by
  induction l with
  | nil => simp [sortDescBySize]
  | cons f fs ih => simp [sortDescBySize, mem_insertDescBySize, ih]

theorem pairwise_insertDescBySize {f : TableFileSchema} {l : List TableFileSchema}
    (h : l.Pairwise (fun a b => b.file_size_ ≤ a.file_size_)) :
    (insertDescBySize f l).Pairwise (fun a b => b.file_size_ ≤ a.file_size_) := by
  induction l with
  | nil => simp [insertDescBySize]
  | cons g gs ih =>
    rw [List.pairwise_cons] at h
    by_cases hle : g.file_size_ ≤ f.file_size_
    · rw [insertDescBySize, if_pos hle, List.pairwise_cons]
      refine ⟨?_, List.pairwise_cons.mpr h⟩
      intro b hb
      rcases List.mem_cons.mp hb with rfl | hb2
      · exact hle
      · exact le_trans (h.1 b hb2) hle
    · rw [insertDescBySize, if_neg hle, List.pairwise_cons]
      refine ⟨?_, ih h.2⟩
      intro b hb
      rcases mem_insertDescBySize.mp hb with rfl | hb2
      · exact le_of_lt (lt_of_not_le hle)
      · exact h.1 b hb2

theorem sortDescBySize_sorted (l : List TableFileSchema) :
    (sortDescBySize l).Pairwise (fun a b => b.file_size_ ≤ a.file_size_) := by
  induction l with
  | nil => simp [sortDescBySize]
  | cons f fs ih => exact pairwise_insertDescBySize ih

theorem filter_idem {α : Type} (p : α → Bool) (l : List α) :
    (l.filter p).filter p = l.filter p := by
  induction l with
  | nil => rfl
  | cons a l ih =>
    by_cases h : p a
    · simp [List.filter_cons, h, ih]
    · simp [List.filter_cons, h, ih]

theorem filter_neg_filter_pos {α : Type} (p : α → Bool) (l : List α) :
    (l.filter (fun a => !p a)).filter p = [] := by
  induction l with
  | nil => rfl
  | cons a l ih =>
    by_cases h : p a
    · simp [List.filter_cons, h, ih]
    · simp [List.filter_cons, h, ih]

theorem filter_const_true {α : Type} (l : List α) :
    l.filter (fun _ => true) = l := by
  induction l with
  | nil => rfl
  | cons a l ih => simp [List.filter_cons, ih]

/-! ### Concrete rows used by witnesses and counterexamples -/

/-- A root collection `"c"` in state NORMAL. -/
def tableC : TableSchema :=
  ⟨1, "c", TableState.NORMAL, 4, 0, 0, 1024, 1, "\x7b\x7d", 1, "", "", "0.7", 0⟩

/-- A RAW segment of `"c"`. -/
def fileRaw : TableFileSchema :=
  ⟨1, "c", "s1", 1, "f1", FileType.RAW, 100, 10, 0, 0, 0, 0⟩

/-- A NEW (shadow) segment of `"c"`. -/
def fileNew : TableFileSchema :=
  ⟨2, "c", "s2", 1, "f2", FileType.NEW, 50, 5, 0, 0, 0, 0⟩

/-- Catalog with the NORMAL collection `"c"`, one RAW and one NEW segment. -/
def catEx : Catalog := ⟨[tableC], [fileRaw, fileNew]⟩

/-- Catalog where collection `"c"` is soft-deleted but its RAW segment row
remains. -/
def catGone : Catalog := ⟨[{ tableC with state_ := TableState.TO_DELETE }], [fileRaw]⟩

/-- A binary-metric (JACCARD) collection `"b"`. -/
def tableBin : TableSchema :=
  ⟨2, "b", TableState.NORMAL, 4, 0, 0, 1024, 1, "\x7b\x7d", METRIC_JACCARD, "", "", "0.7", 0⟩

/-- An INDEX segment of `"b"`. -/
def fIdxB : TableFileSchema :=
  ⟨6, "b", "s6", 1, "f6", FileType.INDEX, 10, 1, 0, 0, 0, 0⟩

/-- A BACKUP segment of `"b"`. -/
def fBakB : TableFileSchema :=
  ⟨7, "b", "s7", 1, "f7", FileType.BACKUP, 10, 1, 0, 0, 0, 0⟩

/-- A RAW segment of `"b"`. -/
def fRawB : TableFileSchema :=
  ⟨8, "b", "s8", 1, "f8", FileType.RAW, 10, 1, 0, 0, 0, 0⟩

/-- Catalog for the drop-index claim. -/
def catIdxEx : Catalog := ⟨[tableBin], [fIdxB, fBakB, fRawB]⟩

/-- An expired TO_DELETE segment row (updated at time 0). -/
def fDelEx : TableFileSchema :=
  ⟨9, "c", "s9", 1, "f9", FileType.TO_DELETE, 10, 1, 0, 0, 0, 0⟩

/-- System state for the cleaner claims: the expired TO_DELETE row and its
blob on disk. -/
def sysEx : SysState := ⟨⟨[tableC], [fDelEx]⟩, ["f9"]⟩

/-- Catalog for the merge claim: a small RAW file, a smaller RAW file, a RAW
file at the size limit, and a TO_INDEX file. -/
def catMergeEx : Catalog :=
  ⟨[tableC],
   [fileRaw,
    ⟨3, "c", "s3", 1, "f3", FileType.RAW, 30, 3, 0, 0, 0, 0⟩,
    ⟨4, "c", "s4", 1, "f4", FileType.RAW, 2048, 200, 0, 0, 0, 0⟩,
    ⟨5, "c", "s5", 1, "f5", FileType.TO_INDEX, 40, 4, 0, 0, 0, 0⟩]⟩

/-! ### C1 -/

/-- C1: a segment is returned by `FilesToSearch` exactly when its kind is in
{RAW, TO_INDEX, INDEX} and it belongs to the requested collection whose (sole)
row is not TO_DELETE; when no non-TO_DELETE row for the collection exists
(absent or soft-deleted), the call returns DB_NOT_FOUND and yields no
segments. -/
theorem filesToSearch_visibility (cat : Catalog) (table_id : String) :
    (describeRows cat table_id = [] →
      FilesToSearch cat table_id [] =
        Except.error ⟨StatusCode.DB_NOT_FOUND, "Table " ++ table_id ++ " not found"⟩) ∧
    (∀ t0, describeRows cat table_id = [t0] →
      ∃ l, FilesToSearch cat table_id [] = Except.ok l ∧
        ∀ f, f ∈ l ↔ f ∈ cat.files ∧ f.table_id_ = table_id ∧
          (f.file_type_ = FileType.RAW ∨ f.file_type_ = FileType.TO_INDEX ∨
           f.file_type_ = FileType.INDEX)) := by
  constructor
  · intro h
    simp [FilesToSearch, DescribeTable, h]
  · intro t0 h
    refine ⟨cat.files.filter (fun f =>
      f.table_id_ = table_id ∧ f.file_type_ ∈ searchKinds), ?_, ?_⟩
    · simp [FilesToSearch, DescribeTable, h]
    · intro f
      simp only [List.mem_filter, decide_eq_true_eq, searchKinds, List.mem_cons,
        List.mem_singleton, List.not_mem_nil, or_false]

/-- Witness for C1 at two concrete catalogs: a soft-deleted collection gives
NOT_FOUND, and a NORMAL collection returns exactly its RAW segment. -/
theorem filesToSearch_visibility_w :
    (describeRows catGone "c" = [] ∧
      FilesToSearch catGone "c" [] =
        Except.error ⟨StatusCode.DB_NOT_FOUND, "Table " ++ "c" ++ " not found"⟩) ∧
    (describeRows catEx "c" = [tableC] ∧
      ∃ l, FilesToSearch catEx "c" [] = Except.ok l ∧
        ∀ f, f ∈ l ↔ f ∈ catEx.files ∧ f.table_id_ = "c" ∧
          (f.file_type_ = FileType.RAW ∨ f.file_type_ = FileType.TO_INDEX ∨
           f.file_type_ = FileType.INDEX)) :=
  ⟨⟨by decide, (filesToSearch_visibility catGone "c").1 (by decide)⟩,
   ⟨by decide, (filesToSearch_visibility catEx "c").2 tableC (by decide)⟩⟩

/-! ### C5 -/

/-- C5: with a non-empty id, `CreateTable` fails `DB_ALREADY_EXIST` when the
row with that id is NORMAL, fails with the distinct `DB_ERROR` conflict when
that row is TO_DELETE, and otherwise inserts the row stamped with `now`;
with an empty id the generated id is used and insertion happens with no
existence check. -/
theorem createTable_conflicts (cat : Catalog) (schema : TableSchema)
    (gen_id : String) (now new_pk : Int) :
    (∀ t, schema.table_id_ ≠ "" →
      cat.tables.filter (fun t2 => t2.table_id_ = schema.table_id_) = [t] →
        (t.state_ = TableState.NORMAL →
          CreateTable cat schema gen_id now new_pk =
            Except.error ⟨StatusCode.DB_ALREADY_EXIST, "Table already exists"⟩) ∧
        (t.state_ = TableState.TO_DELETE →
          CreateTable cat schema gen_id now new_pk =
            Except.error ⟨StatusCode.DB_ERROR,
              "Table already exists and it is in delete state, please wait a second"⟩ ∧
          StatusCode.DB_ERROR ≠ StatusCode.DB_ALREADY_EXIST)) ∧
    (schema.table_id_ ≠ "" →
      cat.tables.filter (fun t2 => t2.table_id_ = schema.table_id_) = [] →
      CreateTable cat schema gen_id now new_pk =
        Except.ok ({ cat with tables := cat.tables ++
            [{ schema with created_on_ := now, id_ := new_pk }] },
          { schema with created_on_ := now, id_ := new_pk })) ∧
    (schema.table_id_ = "" →
      CreateTable cat schema gen_id now new_pk =
        Except.ok ({ cat with tables := cat.tables ++
            [{ schema with table_id_ := gen_id, created_on_ := now, id_ := new_pk }] },
          { schema with table_id_ := gen_id, created_on_ := now, id_ := new_pk })) := by
  refine ⟨?_, ?_, ?_⟩
  · intro t hne hfil
    constructor
    · intro hnorm
      simp [CreateTable, hne, hfil, hnorm]
    · intro hdel
      refine ⟨?_, by simp⟩
      simp [CreateTable, hne, hfil, hdel]
  · intro hne hfil
    simp [CreateTable, hne, hfil]
  · intro hemp
    simp [CreateTable, hemp]

/-- Witness for C5: against the concrete catalogs, creating `"c"` again fails
ALREADY_EXISTS, creating it while soft-deleted fails with the distinct
DB_ERROR, a fresh id `"d"` is inserted with `created_on_ = 7`, and an empty
id takes the generated one. -/
theorem createTable_conflicts_w :
    (CreateTable catEx { tableC with id_ := 0 } "g" 7 2 =
      Except.error ⟨StatusCode.DB_ALREADY_EXIST, "Table already exists"⟩) ∧
    (CreateTable catGone { tableC with id_ := 0 } "g" 7 2 =
      Except.error ⟨StatusCode.DB_ERROR,
        "Table already exists and it is in delete state, please wait a second"⟩) ∧
    (CreateTable catEx { tableC with id_ := 0, table_id_ := "d" } "g" 7 2 =
      Except.ok ({ catEx with tables := catEx.tables ++
          [{ tableC with table_id_ := "d", created_on_ := 7, id_ := 2 }] },
        { tableC with table_id_ := "d", created_on_ := 7, id_ := 2 })) ∧
    (CreateTable catEx { tableC with id_ := 0, table_id_ := "" } "g" 7 2 =
      Except.ok ({ catEx with tables := catEx.tables ++
          [{ tableC with table_id_ := "g", created_on_ := 7, id_ := 2 }] },
        { tableC with table_id_ := "g", created_on_ := 7, id_ := 2 })) :=
  ⟨((createTable_conflicts catEx { tableC with id_ := 0 } "g" 7 2).1 tableC
      (by decide) (by decide)).1 (by decide),
   (((createTable_conflicts catGone { tableC with id_ := 0 } "g" 7 2).1
      { tableC with state_ := TableState.TO_DELETE }
      (by decide) (by decide)).2 (by decide)).1,
   by
    have h := (createTable_conflicts catEx { tableC with id_ := 0, table_id_ := "d" }
      "g" 7 2).2.1 (by decide) (by decide)
    simpa using h,
   by
    have h := (createTable_conflicts catEx { tableC with id_ := 0, table_id_ := "" }
      "g" 7 2).2.2 (by decide)
    simpa using h⟩

/-! ### C4 -/

/-- C4: for an existing collection, `FilesToMerge` returns exactly its RAW
segments strictly smaller than the collection's target segment size
(`index_file_size_`), in descending size order. -/
theorem filesToMerge_raw_small_desc (cat : Catalog) (table_id : String)
    (t0 : TableSchema) (h : describeRows cat table_id = [t0]) :
    ∃ l, FilesToMerge cat table_id = Except.ok l ∧
      (∀ f, f ∈ l ↔ f ∈ cat.files ∧ f.table_id_ = table_id ∧
        f.file_type_ = FileType.RAW ∧ f.file_size_ < t0.index_file_size_) ∧
      l.Pairwise (fun a b => b.file_size_ ≤ a.file_size_) := by
  refine ⟨(sortDescBySize (cat.files.filter (fun f =>
      f.file_type_ = FileType.RAW ∧ f.table_id_ = table_id))).filter
      (fun f => f.file_size_ < t0.index_file_size_), ?_, ?_, ?_⟩
  · simp [FilesToMerge, DescribeTable, h]
  · intro f
    simp only [List.mem_filter, decide_eq_true_eq, mem_sortDescBySize]
    tauto
  · exact List.Pairwise.sublist (List.filter_sublist _) (sortDescBySize_sorted _)

/-- Witness for C4: on the concrete catalog extended with a large RAW file
and a small TO_INDEX file, only the small RAW file comes back. -/
theorem filesToMerge_raw_small_desc_w :
    describeRows catMergeEx "c" = [tableC] ∧
    (∃ l, FilesToMerge catMergeEx "c" = Except.ok l ∧
      (∀ f, f ∈ l ↔ f ∈ catMergeEx.files ∧ f.table_id_ = "c" ∧
        f.file_type_ = FileType.RAW ∧ f.file_size_ < tableC.index_file_size_) ∧
      l.Pairwise (fun a b => b.file_size_ ≤ a.file_size_)) :=
  ⟨by decide, filesToMerge_raw_small_desc catMergeEx "c" tableC (by decide)⟩

/-! ### C9 -/

/-- List-level decomposition of the non-TO_DELETE byte sum into the visible
part and the shadow/backup part. -/
theorem size_sum_split (l : List TableFileSchema) :
    ((l.filter (fun f => f.file_type_ ≠ FileType.TO_DELETE)).map
      (fun f => f.file_size_)).sum =
    ((l.filter (fun f => f.file_type_ ∈ searchKinds)).map
      (fun f => f.file_size_)).sum +
    ((l.filter (fun f =>
      f.file_type_ = FileType.NEW ∨ f.file_type_ = FileType.NEW_MERGE ∨
      f.file_type_ = FileType.NEW_INDEX ∨ f.file_type_ = FileType.BACKUP)).map
      (fun f => f.file_size_)).sum := by
  induction l with
  | nil => rfl
  | cons f fs ih =>
    cases hft : f.file_type_ <;>
      simp [List.filter_cons, hft, searchKinds] at ih ⊢ <;> omega

/-- C9 counterexample: on a catalog whose only segment is a NEW (shadow) one
of 50 bytes, `Size` returns 50 while the visible byte sum is 0, so `Size` is
not the sum over the segments whose kind is in {RAW, TO_INDEX, INDEX}. -/
theorem size_visible_cex :
    Size ⟨[tableC], [fileNew]⟩ = 50 ∧ specVisibleSize ⟨[tableC], [fileNew]⟩ = 0 ∧
    Size ⟨[tableC], [fileNew]⟩ ≠ specVisibleSize ⟨[tableC], [fileNew]⟩ := by
  refine ⟨by decide, by decide, by decide⟩

/-- C9 amended: `Size` sums the bytes of every segment whose kind is not
TO_DELETE, i.e. the visible bytes plus the bytes of shadow (NEW, NEW_MERGE,
NEW_INDEX) and BACKUP segments. -/
theorem size_nonDeleted_decomposition (cat : Catalog) :
    Size cat = specVisibleSize cat + shadowBackupSize cat :=
  size_sum_split cat.files

/-! ### C3 -/

/-- The batch loop of `UpdateTableFiles`, generalized over the accumulator:
the written rows are the inputs, each stamped and coerced to TO_DELETE
exactly when its table is not active. -/
theorem updateTableFiles_go (cat : Catalog) (now : Int) (files : List TableFileSchema)
    (acc : Catalog × List TableFileSchema) :
    (files.foldl
      (fun acc f =>
        let coerced :=
          if hasActiveTable cat f.table_id_ then f
          else { f with file_type_ := FileType.TO_DELETE }
        let written := { coerced with updated_time_ := now }
        ({ acc.1 with files := updateFileRow acc.1.files written }, acc.2 ++ [written]))
      acc).2 = acc.2 ++ files.map (fun f =>
        if hasActiveTable cat f.table_id_ then { f with updated_time_ := now }
        else { f with file_type_ := FileType.TO_DELETE, updated_time_ := now }) := by
  induction files generalizing acc with
  | nil => simp
  | cons f fs ih =>
    rw [List.foldl_cons, ih]
    by_cases h : hasActiveTable cat f.table_id_ <;> simp [h]

/-- C3 counterexample: on a catalog with no collection row at all (so in
particular no parent in state TO_DELETE), `UpdateTableFile` still rewrites
the passed RAW kind to TO_DELETE, so the passed kind is not stored
unchanged. -/
theorem updateSegment_absent_cex :
    (∀ t, t ∈ (Catalog.mk [] [fileRaw]).tables → False) ∧
    (UpdateTableFile ⟨[], [fileRaw]⟩ fileRaw 5).2.file_type_ = FileType.TO_DELETE ∧
    fileRaw.file_type_ = FileType.RAW := by
  refine ⟨by simp, by decide, by decide⟩

/-- C3 amended: `UpdateTableFile` stores the segment with kind TO_DELETE
when the parent collection row is absent or TO_DELETE, and stores the passed
kind unchanged when the parent row is present and not TO_DELETE; the batched
`UpdateTableFiles` (one transaction) writes back each segment stamped and
coerced to TO_DELETE exactly when no non-TO_DELETE parent row exists. -/
theorem updateSegment_coercion (cat : Catalog) (file : TableFileSchema) (now : Int)
    (files : List TableFileSchema) :
    (cat.tables.filter (fun t => t.table_id_ = file.table_id_) = [] →
      (UpdateTableFile cat file now).2 =
        { file with file_type_ := FileType.TO_DELETE, updated_time_ := now }) ∧
    (∀ t rest, cat.tables.filter (fun t2 => t2.table_id_ = file.table_id_) = t :: rest →
      t.state_ = TableState.TO_DELETE →
      (UpdateTableFile cat file now).2 =
        { file with file_type_ := FileType.TO_DELETE, updated_time_ := now }) ∧
    (∀ t rest, cat.tables.filter (fun t2 => t2.table_id_ = file.table_id_) = t :: rest →
      t.state_ ≠ TableState.TO_DELETE →
      (UpdateTableFile cat file now).2 = { file with updated_time_ := now }) ∧
    ((UpdateTableFiles cat files now).2 = files.map (fun f =>
      if hasActiveTable cat f.table_id_ then { f with updated_time_ := now }
      else { f with file_type_ := FileType.TO_DELETE, updated_time_ := now })) := by
  refine ⟨?_, ?_, ?_, ?_⟩
  · intro h
    simp [UpdateTableFile, h]
  · intro t rest h hdel
    simp [UpdateTableFile, h, hdel]
  · intro t rest h hnotdel
    simp [UpdateTableFile, h, hnotdel]
  · unfold UpdateTableFiles
    simpa using updateTableFiles_go cat now files (cat, [])

/-- Witness for C3 at concrete inputs: absent parent coerces, soft-deleted
parent coerces, live parent stores RAW unchanged, and the batch against the
empty-table catalog coerces its single file. -/
theorem updateSegment_coercion_w :
    ((UpdateTableFile ⟨[], [fileRaw]⟩ fileRaw 5).2 =
      { fileRaw with file_type_ := FileType.TO_DELETE, updated_time_ := 5 }) ∧
    ((UpdateTableFile catGone fileRaw 5).2 =
      { fileRaw with file_type_ := FileType.TO_DELETE, updated_time_ := 5 }) ∧
    ((UpdateTableFile catEx fileRaw 5).2 = { fileRaw with updated_time_ := 5 }) ∧
    ((UpdateTableFiles ⟨[], [fileRaw]⟩ [fileRaw] 5).2 =
      [{ fileRaw with file_type_ := FileType.TO_DELETE, updated_time_ := 5 }]) :=
  ⟨(updateSegment_coercion ⟨[], [fileRaw]⟩ fileRaw 5 []).1 (by decide),
   (updateSegment_coercion catGone fileRaw 5 []).2.1
     { tableC with state_ := TableState.TO_DELETE } [] (by decide) (by decide),
   (updateSegment_coercion catEx fileRaw 5 []).2.2.1 tableC [] (by decide) (by decide),
   by
    have h := (updateSegment_coercion ⟨[], [fileRaw]⟩ fileRaw 5 [fileRaw]).2.2.2
    simpa [hasActiveTable] using h⟩

/-! ### C8 -/

/-- The per-row effect C8 ascribes to `DropTableIndex`: for the collection's
rows, INDEX becomes TO_DELETE and BACKUP becomes RAW (stamped); every other
kind, and every other collection's row, is unchanged. -/
def dropIndexFileTransition (table_id : String) (now : Int) (f : TableFileSchema) :
    TableFileSchema :=
  if f.table_id_ = table_id then
    match f.file_type_ with
    | FileType.INDEX => { f with file_type_ := FileType.TO_DELETE, updated_time_ := now }
    | FileType.BACKUP => { f with file_type_ := FileType.RAW, updated_time_ := now }
    | _ => f
  else f

/-- C8: for an existing collection, `DropTableIndex` applies exactly the
INDEX→TO_DELETE and BACKUP→RAW transitions to the collection's segments
(leaving other kinds and other collections untouched) and resets the
collection's engine type to the binary default when its metric is binary and
the standard default otherwise, with empty index params. -/
theorem dropTableIndex_transitions (cat : Catalog) (table_id : String) (now : Int)
    (t0 : TableSchema) (h : cat.tables.filter (fun t => t.table_id_ = table_id) = [t0]) :
    (DropTableIndex cat table_id now).files =
      cat.files.map (dropIndexFileTransition table_id now) ∧
    (DropTableIndex cat table_id now).tables = cat.tables.map (fun t =>
      if t.table_id_ = table_id then
        { t with
          engine_type_ := if IsBinaryMetricType t0.metric_type_ then FAISS_BIN_IDMAP
            else DEFAULT_ENGINE_TYPE,
          index_params_ := "\x7b\x7d" }
      else t) := by
  have hfile : ∀ f : TableFileSchema,
      (fun f2 => if f2.table_id_ = table_id ∧ f2.file_type_ = FileType.BACKUP then
          { f2 with file_type_ := FileType.RAW, updated_time_ := now } else f2)
        ((fun f2 => if f2.table_id_ = table_id ∧ f2.file_type_ = FileType.INDEX then
          { f2 with file_type_ := FileType.TO_DELETE, updated_time_ := now } else f2) f) =
      dropIndexFileTransition table_id now f := by
    intro f
    by_cases h1 : f.table_id_ = table_id
    · cases hft : f.file_type_ <;> simp [dropIndexFileTransition, h1, hft]
    · simp [dropIndexFileTransition, h1]
  constructor
  · simp only [DropTableIndex]
    rw [List.map_map]
    exact List.map_congr_left (fun f _ => hfile f)
  · simp only [DropTableIndex, h]

/-- Witness for C8 on a binary-metric collection `"b"` with an INDEX, a
BACKUP and a RAW segment. -/
theorem dropTableIndex_transitions_w :
    ((DropTableIndex catIdxEx "b" 9).files =
      catIdxEx.files.map (dropIndexFileTransition "b" 9) ∧
    (DropTableIndex catIdxEx "b" 9).tables = catIdxEx.tables.map (fun t =>
      if t.table_id_ = "b" then
        { t with
          engine_type_ := if IsBinaryMetricType tableBin.metric_type_ then FAISS_BIN_IDMAP
            else DEFAULT_ENGINE_TYPE,
          index_params_ := "\x7b\x7d" }
      else t)) ∧
    (DropTableIndex catIdxEx "b" 9).files =
      [{ fIdxB with file_type_ := FileType.TO_DELETE, updated_time_ := 9 },
       { fBakB with file_type_ := FileType.RAW, updated_time_ := 9 }, fRawB] :=
  ⟨dropTableIndex_transitions catIdxEx "b" 9 tableBin (by decide), by decide⟩

/-! ### C6 -/

/-- C6: running the TTL cleaner twice in immediate succession (same clock,
TTL and ongoing set) leaves exactly the state the first run produced: the
second run removes no further rows and no further blobs. -/
theorem cleanExpired_idempotent (s : SysState) (now seconds : Int)
    (ongoing : List String) :
    CleanUpFilesWithTTL (CleanUpFilesWithTTL s now seconds ongoing) now seconds ongoing =
      CleanUpFilesWithTTL s now seconds ongoing := by
  unfold CleanUpFilesWithTTL
  simp only [filter_idem, filter_neg_filter_pos, List.any_nil, Bool.not_false,
    filter_const_true]

/-! ### C7 -/

/-- C7: an expired TO_DELETE segment row registered in the ongoing set is
neither removed from the catalog nor has its blob deleted from disk by a run
of the TTL cleaner (assuming, per the data model, that `file_id_` is unique
among the rows). -/
theorem cleanExpired_ongoing_safe (s : SysState) (now seconds : Int)
    (ongoing : List String) (f : TableFileSchema)
    (hmem : f ∈ s.catalog.files)
    (hkind : f.file_type_ = FileType.TO_DELETE)
    (hexp : f.updated_time_ < now - seconds * US_PS)
    (hong : f.file_id_ ∈ ongoing)
    (huniq : ∀ g ∈ s.catalog.files, g.file_id_ = f.file_id_ → g = f) :
    f ∈ (CleanUpFilesWithTTL s now seconds ongoing).catalog.files ∧
    (f.file_id_ ∈ s.disk → f.file_id_ ∈ (CleanUpFilesWithTTL s now seconds ongoing).disk) := by
  have hr : cleanRemovable now seconds ongoing f = false := by
    simp [cleanRemovable, hong]
  constructor
  · unfold CleanUpFilesWithTTL
    exact List.mem_filter.mpr ⟨hmem, by simp [hr]⟩
  · intro hd
    unfold CleanUpFilesWithTTL
    refine List.mem_filter.mpr ⟨hd, ?_⟩
    have hnone : ∀ g ∈ s.catalog.files.filter (cleanRemovable now seconds ongoing),
        ¬g.file_id_ = f.file_id_ := by
      intro g hg heq
      rcases List.mem_filter.mp hg with ⟨hg1, hg2⟩
      rw [huniq g hg1 heq, hr] at hg2
      exact Bool.false_ne_true hg2
    simp only [Bool.not_eq_true', List.any_eq_false, decide_eq_true_eq]
    exact hnone

/-- Witness for C7: an expired TO_DELETE row whose blob is on disk and whose
id is in the ongoing set survives the cleaner. -/
theorem cleanExpired_ongoing_safe_w :
    fDelEx ∈ (CleanUpFilesWithTTL sysEx 2000000 1 ["f9"]).catalog.files ∧
    "f9" ∈ (CleanUpFilesWithTTL sysEx 2000000 1 ["f9"]).disk :=
  ⟨(cleanExpired_ongoing_safe sysEx 2000000 1 ["f9"] fDelEx (by decide) (by decide)
      (by decide) (by decide) (by decide)).1,
   (cleanExpired_ongoing_safe sysEx 2000000 1 ["f9"] fDelEx (by decide) (by decide)
      (by decide) (by decide) (by decide)).2 (by decide)⟩

/-! ### C10 -/

/-- C10: on a catalog with no non-TO_DELETE segment rows (here the empty
catalog) and remaining size 1, every recursive call of `DiscardFiles` selects
nothing, commits nothing, and tail-calls itself with unchanged arguments:
after any number of recursive calls the function has not returned.  The
recursion therefore does not terminate for every catalog state. -/
theorem discardFiles_empty_self_loop (now : Int) (fuel : Nat) :
    discardIter now fuel (⟨⟨[], []⟩, 1⟩ : Catalog × Int) =
      some (⟨⟨[], []⟩, 1⟩ : Catalog × Int) := by
  induction fuel with
  | zero => rfl
  | succ n ih =>
    rw [discardIter]
    exact ih


/-! ### C2 -/

/-- The row `CreatePartition` inserts for a generated partition name: the
parent's schema with the generated id, the trimmed tag, the parent as owner,
and the given lsn, stamped at `now` with primary key `new_pk`. -/
def partitionInsertRow (parent : TableSchema) (parent_id tag gen_id : String)
    (lsn now new_pk : Int) : TableSchema :=
  { parent with
    table_id_ := gen_id, id_ := new_pk, flag_ := 0, created_on_ := now,
    owner_table_ := parent_id, partition_tag_ := TrimStringBlank tag, flush_lsn_ := lsn }

/-- The catalog after the first call of the C2 counterexample. -/
def catP1 : Catalog :=
  ⟨[tableC, partitionInsertRow tableC "c" "p1" "100" 0 10 2], [fileRaw, fileNew]⟩

/-- C2 counterexample: creating partition tag `"p1"` under `"c"` twice — the
first call succeeds, but the second fails with the generic `DB_ERROR`
("Duplicate partition is not allowed"), which is not the `DB_ALREADY_EXIST`
code the claim states. -/
theorem createPartition_duplicate_cex :
    CreatePartition catEx "c" "" "p1" 0 "100" 10 2 =
      Except.ok (catP1, partitionInsertRow tableC "c" "p1" "100" 0 10 2) ∧
    CreatePartition catP1 "c" "" "p1" 0 "101" 11 3 =
      Except.error ⟨StatusCode.DB_ERROR, "Duplicate partition is not allowed"⟩ ∧
    StatusCode.DB_ERROR ≠ StatusCode.DB_ALREADY_EXIST := by
  refine ⟨rfl, rfl, by decide⟩

/-- C2 amended: under a NORMAL root collection, the first `CreatePartition`
with a fresh generated name succeeds; repeating the same (trimmed) tag makes
the second call fail with the generic `DB_ERROR` code and message "Duplicate
partition is not allowed" — not with `DB_ALREADY_EXIST`; and creating a
partition under a partition (owner non-empty) is rejected with `DB_ERROR`
("Nested partition is not allowed"). -/
theorem createPartition_duplicate_amended (cat : Catalog) (parent_id tag : String)
    (parent : TableSchema) (gen_id : String) (lsn now new_pk : Int)
    (name2 gen_id2 : String) (lsn2 now2 new_pk2 : Int)
    (hdesc : describeRows cat parent_id = [parent])
    (howner : parent.owner_table_ = "")
    (hdup : GetPartitionName cat parent_id tag = none)
    (hgen : gen_id ≠ "")
    (hfresh : cat.tables.filter (fun t => t.table_id_ = gen_id) = []) :
    (CreatePartition cat parent_id "" tag lsn gen_id now new_pk =
        Except.ok ({ cat with tables := cat.tables ++
            [partitionInsertRow parent parent_id tag gen_id lsn now new_pk] },
          partitionInsertRow parent parent_id tag gen_id lsn now new_pk) ∧
      (partitionInsertRow parent parent_id tag gen_id lsn now new_pk).partition_tag_ =
        TrimStringBlank tag ∧
      CreatePartition ({ cat with tables := cat.tables ++
          [partitionInsertRow parent parent_id tag gen_id lsn now new_pk] })
          parent_id name2 tag lsn2 gen_id2 now2 new_pk2 =
        Except.error ⟨StatusCode.DB_ERROR, "Duplicate partition is not allowed"⟩ ∧
      StatusCode.DB_ERROR ≠ StatusCode.DB_ALREADY_EXIST) ∧
    (∀ (cat2 : Catalog) (pid : String) (p : TableSchema),
      describeRows cat2 pid = [p] → p.owner_table_ ≠ "" →
      ∀ nm tg (l2 : Int) g2 (n2 k2 : Int),
        CreatePartition cat2 pid nm tg l2 g2 n2 k2 =
          Except.error ⟨StatusCode.DB_ERROR, "Nested partition is not allowed"⟩) := by
  have hparent : parent ∈ cat.tables ∧ parent.table_id_ = parent_id ∧
      parent.state_ ≠ TableState.TO_DELETE := by
    have hm : parent ∈ describeRows cat parent_id := by
      rw [hdesc]; exact List.mem_singleton.mpr rfl
    rcases List.mem_filter.mp hm with ⟨h1, h2⟩
    simp only [decide_eq_true_eq] at h2
    exact ⟨h1, h2.1, h2.2⟩
  have hne_gen : ¬(gen_id = parent_id) := by
    intro he
    have hmem : parent ∈ cat.tables.filter (fun t => t.table_id_ = gen_id) :=
      List.mem_filter.mpr ⟨hparent.1, by simp [hparent.2.1, he]⟩
    rw [hfresh] at hmem
    exact List.not_mem_nil parent hmem
  have hdup_nil : cat.tables.filter (fun t =>
      t.owner_table_ = parent_id ∧ t.partition_tag_ = TrimStringBlank tag ∧
      t.state_ ≠ TableState.TO_DELETE) = [] := by
    have h2 := hdup
    simp only [GetPartitionName] at h2
    rcases hfil : cat.tables.filter (fun t =>
      t.owner_table_ = parent_id ∧ t.partition_tag_ = TrimStringBlank tag ∧
      t.state_ ≠ TableState.TO_DELETE) with _ | ⟨a, l⟩
    · exact hfil
    · rw [hfil] at h2
      simp at h2
  have hdescT : DescribeTable cat parent_id = Except.ok parent := by
    unfold DescribeTable; rw [hdesc]
  have hdesc1 : describeRows ({ cat with tables := cat.tables ++
      [partitionInsertRow parent parent_id tag gen_id lsn now new_pk] }) parent_id =
      [parent] := by
    unfold describeRows at hdesc ⊢
    rw [List.filter_append, hdesc]
    simp [partitionInsertRow, hne_gen]
  have hGPN1 : GetPartitionName ({ cat with tables := cat.tables ++
      [partitionInsertRow parent parent_id tag gen_id lsn now new_pk] })
      parent_id tag = some gen_id := by
    simp only [GetPartitionName]
    rw [List.filter_append, hdup_nil]
    simp [partitionInsertRow, hparent.2.2]
  refine ⟨⟨?_, rfl, ?_, by simp⟩, ?_⟩
  · unfold CreatePartition CreateTable
    rw [hdescT]
    simp [howner, hdup, hgen, hfresh, partitionInsertRow]
  · unfold CreatePartition
    rw [show DescribeTable ({ cat with tables := cat.tables ++
        [partitionInsertRow parent parent_id tag gen_id lsn now new_pk] }) parent_id =
        Except.ok parent from by unfold DescribeTable; rw [hdesc1]]
    simp [howner, hGPN1]
  · intro cat2 pid p hd hown nm tg l2 g2 n2 k2
    unfold CreatePartition
    rw [show DescribeTable cat2 pid = Except.ok p from by unfold DescribeTable; rw [hd]]
    simp [hown]

/-- Witness for C2 amended, instantiated on the concrete catalog `catEx`. -/
theorem createPartition_duplicate_amended_w :
    (CreatePartition catEx "c" "" "p1" 0 "100" 10 2 =
        Except.ok ({ catEx with tables := catEx.tables ++
            [partitionInsertRow tableC "c" "p1" "100" 0 10 2] },
          partitionInsertRow tableC "c" "p1" "100" 0 10 2) ∧
      (partitionInsertRow tableC "c" "p1" "100" 0 10 2).partition_tag_ =
        TrimStringBlank "p1" ∧
      CreatePartition ({ catEx with tables := catEx.tables ++
          [partitionInsertRow tableC "c" "p1" "100" 0 10 2] })
          "c" "x" "p1" 1 "101" 11 3 =
        Except.error ⟨StatusCode.DB_ERROR, "Duplicate partition is not allowed"⟩ ∧
      StatusCode.DB_ERROR ≠ StatusCode.DB_ALREADY_EXIST) ∧
    (∀ (cat2 : Catalog) (pid : String) (p : TableSchema),
      describeRows cat2 pid = [p] → p.owner_table_ ≠ "" →
      ∀ nm tg (l2 : Int) g2 (n2 k2 : Int),
        CreatePartition cat2 pid nm tg l2 g2 n2 k2 =
          Except.error ⟨StatusCode.DB_ERROR, "Nested partition is not allowed"⟩) :=
  createPartition_duplicate_amended catEx "c" "p1" tableC "100" 0 10 2 "x" "101" 1 11 3
    (by decide) (by decide) (by decide) (by decide) (by decide)

end MilvusMeta
